import Mathlib

/-!
Verification of the synchronization engine of the tfatool repository
(src/tfatool/sync.py) against its natural-language specification.

The Python source is shallowly embedded: pure decision logic becomes Lean
functions, the watcher generators become state machines indexed by the tick
number, filesystem and device state is passed explicitly as association
lists from paths to sizes, and a raised Python exception is an explicit
`some e : Option PyErr` result.  External collaborators that are not under
src/ (info.py record types, command.py listing and change signal, upload.py
upload and delete, session.py) are modelled from the specification; each
such definition carries a doc comment starting with: Modelled from the spec.
-/

namespace Tfatool

/-! ## Paths and association-list file systems -/

/-- Python `str(Path(a, b))` for a directory `a` and a plain file name `b`. -/
def joinPath (a b : String) : String := a ++ "/" ++ b

/-- Character scan keeping the component read since the last slash. -/
def basenameAux : List Char → List Char → List Char
  | [], acc => acc.reverse
  | c :: rest, acc =>
    if c = '/' then basenameAux rest [] else basenameAux rest (c :: acc)

/-- Final component of a slash-separated path (used by the modelled device
to name an uploaded artifact after the local file). -/
def basename (s : String) : String := ⟨basenameAux s.data []⟩

/-- A file system (local disk or remote card) as an association list from
path to file size in bytes. -/
abbrev FS := List (String × Nat)

/-- Lookup of a path in an association-list file system. -/
def lookupFS (fs : FS) (p : String) : Option Nat :=
  match fs with
  | [] => none
  | (q, n) :: rest => if q = p then some n else lookupFS rest p

/-- Remove a path from an association-list file system. -/
def eraseFS (fs : FS) (p : String) : FS :=
  fs.filter (fun e => ¬ e.1 = p)

/-- Create or overwrite the file at path `p` with size `n`. -/
def setFS (fs : FS) (p : String) (n : Nat) : FS :=
  (p, n) :: eraseFS fs p

/-! ## Data model -/

/-- Modelled from the spec: the FileRecord of section 3 (the namedtuple
types of info.py are not under src/).  Fields: directory, filename, path,
size in bytes, and a nullable timestamp.  Equality is structural record
equality, as for a Python namedtuple held in a `set`. -/
structure FileRec where
  directory : String
  filename : String
  path : String
  size : Nat
  datetime : Option Nat
deriving DecidableEq, Repr

/-- One entry returned by `scandir`: name, whether it is a regular file,
size and modification time from `stat`. -/
structure DirEntry where
  name : String
  is_file : Bool
  size : Nat
  mtime : Nat
deriving DecidableEq, Repr

/-- Modelled from the spec: the session/context value (session.py is not
under src/).  Per sections 3 and 6 it carries the device url, the local and
remote directory, and the caller-supplied filter predicates (conjoined into
one boolean predicate). -/
structure Session where
  url : String
  local_dir : String
  remote_dir : String
  filters : FileRec → Bool

/-- Embedding of `list_local_files`: scan the directory entries, keep the
regular files, build a record with the session directory, the joined path,
the size and the mtime, and keep the records passing every session filter. -/
def list_local_files (sess : Session) (entries : List DirEntry) : List FileRec :=
  ((entries.filter (fun e => e.is_file)).map (fun e =>
    { directory := sess.local_dir
      filename := e.name
      path := joinPath sess.local_dir e.name
      size := e.size
      datetime := some e.mtime })).filter sess.filters

/-! ## Diffing snapshots by an identity key -/

/-- The set of records of `new` whose key does not occur among the keys of
`old`: the spec notion of (new minus old) by an identity key. -/
def diffByKey {κ : Type} [DecidableEq κ] (key : FileRec → κ)
    (new old : Finset FileRec) : Finset FileRec :=
  new.filter (fun r => key r ∉ old.image key)

/-- The local identity key named by the spec: filename, size, timestamp. -/
def localKey (r : FileRec) : String × Nat × Option Nat :=
  (r.filename, r.size, r.datetime)

/-- The remote identity key named by the spec: the filename alone. -/
def filenameKey (r : FileRec) : String := r.filename

/-! ## The watcher generators -/

/-- State of `watch_local_files`: the previous and the current snapshot. -/
structure WatchState where
  old : Finset FileRec
  new : Finset FileRec
deriving DecidableEq

/-- Embedding of the `watch_local_files` generator.  `L k` is the snapshot
returned by the k-th call of `set(list_local())`; call 0 happens before the
loop and initializes `old_files = new_files`, and call (n+1) happens at the
end of loop iteration n.  `localState L n` is the generator state at its
n-th yield. -/
def localState (L : Nat → Finset FileRec) : Nat → WatchState
  | 0 => ⟨L 0, L 0⟩
  | n + 1 => ⟨(localState L n).new, L (n + 1)⟩

/-- The pair yielded by `watch_local_files` at tick `n`:
`(new_files - old_files, new_files)`. -/
def watch_local_files (L : Nat → Finset FileRec) (n : Nat) :
    Finset FileRec × Finset FileRec :=
  ((localState L n).new \ (localState L n).old, (localState L n).new)

/-- The two kinds of calls `watch_remote_files` makes on its collaborators:
`command.memory_changed` (read-clears the change signal) and
`command.list_files` (lists the remote directory). -/
inductive RemoteCall
  | memoryChanged
  | listFiles
deriving DecidableEq, Repr

/-- State of `watch_remote_files`: previous snapshot, current snapshot, and
the number of `command.list_files` calls made so far. -/
structure RemoteState where
  old : Finset FileRec
  new : Finset FileRec
  calls : Nat
deriving DecidableEq

/-- Embedding of the `watch_remote_files` generator.  `sig n` is the value
returned by the in-loop `command.memory_changed` read of iteration n (a
read clears the signal on the device); `R j` is the snapshot returned by
the j-th `command.list_files` call.  The result at `n` is the list of all
collaborator calls made before the n-th yield paired with the generator
state at the n-th yield.  Before the loop the generator reads the signal
once (clearing it) and lists the directory once; in iteration n it sets
`old := new`, reads the signal, and re-lists only when the read was true. -/
def remoteRun (sig : Nat → Bool) (R : Nat → Finset FileRec) :
    Nat → List RemoteCall × RemoteState
  | 0 => ([RemoteCall.memoryChanged, RemoteCall.listFiles], ⟨R 0, R 0, 1⟩)
  | n + 1 =>
    let s := (remoteRun sig R n).2
    let log := (remoteRun sig R n).1
    if sig n then
      (log ++ [RemoteCall.memoryChanged, RemoteCall.listFiles],
       ⟨s.new, R s.calls, s.calls + 1⟩)
    else
      (log ++ [RemoteCall.memoryChanged], ⟨s.new, s.new, s.calls⟩)

/-- The pair yielded by `watch_remote_files` at tick `n`:
`(new_files - old_files, new_files)`. -/
def watch_remote_files (sig : Nat → Bool) (R : Nat → Finset FileRec) (n : Nat) :
    Finset FileRec × Finset FileRec :=
  ((remoteRun sig R n).2.new \ (remoteRun sig R n).2.old, (remoteRun sig R n).2.new)

/-! ## Watcher lemmas -/

theorem localState_new (L : Nat → Finset FileRec) (n : Nat) :
    (localState L n).new = L n := by
  cases n <;> rfl

theorem localState_old_succ (L : Nat → Finset FileRec) (n : Nat) :
    (localState L (n + 1)).old = L n := by
  show (localState L n).new = L n
  exact localState_new L n

theorem remoteRun_old_succ (sig : Nat → Bool) (R : Nat → Finset FileRec) (n : Nat) :
    (remoteRun sig R (n + 1)).2.old = (remoteRun sig R n).2.new := by
  by_cases h : sig n <;> simp [remoteRun, h]

/-- Records produced by `list_local_files` carry the session directory and
the path joined from it; this is the well-formedness used to show that the
plain set difference coincides with the keyed difference for local
snapshots. -/
theorem list_local_files_wf (sess : Session) (entries : List DirEntry) :
    ∀ r ∈ list_local_files sess entries,
      r.directory = sess.local_dir ∧ r.path = joinPath sess.local_dir r.filename := by
  intro r hr
  unfold list_local_files at hr
  rcases List.mem_filter.mp hr with ⟨hmem, _⟩
  rcases List.mem_map.mp hmem with ⟨e, _, rfl⟩
  exact ⟨rfl, rfl⟩

/-- On snapshots whose records all have a fixed directory and a path
determined by directory and filename, set difference of full records equals
the keyed difference by filename, size and timestamp. -/
theorem sdiff_eq_diffByKey_localKey (new old : Finset FileRec) (d : String)
    (hnew : ∀ r ∈ new, r.directory = d ∧ r.path = joinPath d r.filename)
    (hold : ∀ r ∈ old, r.directory = d ∧ r.path = joinPath d r.filename) :
    new \ old = diffByKey localKey new old := by
  ext r
  simp only [Finset.mem_sdiff, diffByKey, Finset.mem_filter, Finset.mem_image]
  constructor
  · rintro ⟨hrnew, hrold⟩
    refine ⟨hrnew, ?_⟩
    rintro ⟨r2, hr2, hkey⟩
    apply hrold
    have h2 := hold r2 hr2
    have h1 := hnew r hrnew
    have hfields : r2.filename = r.filename ∧ r2.size = r.size ∧ r2.datetime = r.datetime := by
      simpa [localKey, Prod.ext_iff] using hkey
    have : r2 = r := by
      cases r2
      cases r
      simp only [FileRec.mk.injEq]
      simp only at hfields h1 h2
      exact ⟨h2.1.trans h1.1.symm, hfields.1,
        (h2.2.trans (by rw [hfields.1])).trans h1.2.symm, hfields.2.1, hfields.2.2⟩
    rwa [this] at hr2
  · rintro ⟨hrnew, hnot⟩
    exact ⟨hrnew, fun hrold => hnot ⟨r, hrold, rfl⟩⟩

/-! ## Exceptions -/

/-- A raised Python exception, identified by its class name.  `isException`
is true for subclasses of `Exception` and false for the remaining
`BaseException` subclasses (`KeyboardInterrupt`, `SystemExit`, ...): the
source catches `Exception` in `_update_pbar` but `BaseException` in the
two safely-wrappers, and the distinction is observable. -/
structure PyErr where
  name : String
  isException : Bool
deriving DecidableEq, Repr

def requestException : PyErr := ⟨"RequestException", true⟩

def fileNotFoundError : PyErr := ⟨"FileNotFoundError", true⟩

def attributeError : PyErr := ⟨"AttributeError", true⟩

def assertionError : PyErr := ⟨"AssertionError", true⟩

def keyboardInterrupt : PyErr := ⟨"KeyboardInterrupt", false⟩

def connectionError : PyErr := ⟨"ConnectionError", true⟩

/-- A Python call either raises (`some e`) or returns normally (`none`);
paired with the state it leaves behind. -/
abbrev PyResult (σ : Type) := Option PyErr × σ

/-! ## Download transfer engine -/

/-- One element produced by `response.iter_content`: a chunk of the given
byte length, or an exception raised by the stream mid-iteration. -/
inductive Chunk
  | bytes (len : Nat)
  | err (e : PyErr)
deriving DecidableEq, Repr

/-- The streaming HTTP response handed to `_write_file`: a transport status
code and the chunk stream. -/
structure Response where
  status_code : Nat
  chunks : List Chunk

/-- Embedding of `_update_pbar`: `fault` is the exception raised by
`pbar.update`, if any.  The source catches `Exception` (and logs it); a
`BaseException` passes through.  The result is the exception escaping the
call, if any. -/
def _update_pbar (fault : Option PyErr) : Option PyErr :=
  match fault with
  | none => none
  | some e => if e.isException then none else some e

/-- Embedding of `os.remove`: removing a missing path raises
`FileNotFoundError`, otherwise the entry is deleted. -/
def os_remove (p : String) (fs : FS) : PyResult FS :=
  match lookupFS fs p with
  | none => (some fileNotFoundError, fs)
  | some _ => (none, eraseFS fs p)

/-- The chunk loop of `_write_file`: for each chunk, report progress via
`_update_pbar` (whose `pbarFaults k` is the exception, if any, raised by
the k-th `pbar.update` call) and then append the chunk to the open file at
`p`.  A stream error or an uncaught progress error aborts the loop with the
file in its current state. -/
def writeChunks (p : String) (pbarFaults : Nat → Option PyErr) :
    List Chunk → Nat → FS → PyResult FS
  | [], _, fs => (none, fs)
  | Chunk.err e :: _, _, fs => (some e, fs)
  | Chunk.bytes len :: rest, k, fs =>
    match _update_pbar (pbarFaults k) with
    | some e => (some e, fs)
    | none => writeChunks p pbarFaults rest (k + 1) (setFS fs p ((lookupFS fs p).getD 0 + len))

/-- Embedding of `_write_file`: when the status code is 200 the file is
opened for writing (created empty, truncating any previous content) and the
chunks are streamed into it; any other status raises `RequestException`
with nothing opened or written. -/
def _write_file (local_path : String) (response : Response)
    (pbarFaults : Nat → Option PyErr) (fs : FS) : PyResult FS :=
  if response.status_code = 200 then
    writeChunks local_path pbarFaults response.chunks 0 (setFS fs local_path 0)
  else
    (some requestException, fs)

/-- Embedding of `_write_file_safely`: run `_write_file`; on any raised
`BaseException`, call `os.remove(local_path)` and re-raise the original
exception — unless `os.remove` itself raises, in which case that new
exception propagates instead. -/
def _write_file_safely (local_path : String) (response : Response)
    (pbarFaults : Nat → Option PyErr) (fs : FS) : PyResult FS :=
  match _write_file local_path response pbarFaults fs with
  | (none, fs2) => (none, fs2)
  | (some e, fs2) =>
    match os_remove local_path fs2 with
    | (none, fs3) => (some e, fs3)
    | (some e2, _) => (some e2, fs2)

/-! ## Upload transfer engine -/

/-- Modelled from the spec: `upload.upload_file` (upload.py is not under
src/).  Per section 6 it streams the content of the local file at
`local_path` to the device, and per section 4.4 the upload mirrors the
download, so the artifact is created in the session remote directory under
the file name.  An interruption `fault` leaves a truncated artifact of
`cut` bytes at that remote path and raises the fault. -/
def upload_file (local_path : String) (sess : Session)
    (fault : Option (PyErr × Nat)) (fs : FS) (rfs : FS) : PyResult FS :=
  let target := joinPath sess.remote_dir (basename local_path)
  match fault with
  | none => (none, setFS rfs target ((lookupFS fs local_path).getD 0))
  | some (e, cut) => (some e, setFS rfs target cut)

/-- Modelled from the spec: `upload.delete_file` (upload.py is not under
src/).  Per section 6, delete(path, context) removes the remote object
stored at `path` on the device. -/
def delete_file (path : String) (rfs : FS) : FS :=
  eraseFS rfs path

/-- Embedding of `_upload_file_safely`: call `upload.upload_file` with the
local path of `fileinfo`; on any raised `BaseException`, call
`upload.delete_file(fileinfo.path, session)` — note this passes the LOCAL
path of the file — and re-raise the original exception. -/
def _upload_file_safely (fileinfo : FileRec) (sess : Session)
    (fault : Option (PyErr × Nat)) (fs : FS) (rfs : FS) : PyResult FS :=
  match upload_file fileinfo.path sess fault fs rfs with
  | (none, rfs2) => (none, rfs2)
  | (some e, rfs2) => (some e, delete_file fileinfo.path rfs2)

/-! ## Per-file sync decisions -/

/-- The externally visible actions a per-file sync decision can take. -/
inductive SyncEffect
  | skipFile (name : String)
  | deleteRemote (path : String)
  | uploadFile (path : String)
  | removeLocal (path : String)
  | downloadFile (path : String)
deriving DecidableEq, Repr

/-- Generic association-list lookup, used for the `remote_files` mapping of
`_sync_local_file` (filename to remote record). -/
def lookupMap {α : Type} (m : List (String × α)) (k : String) : Option α :=
  match m with
  | [] => none
  | (q, a) :: rest => if q = k then some a else lookupMap rest k

/-- A Python positional argument as passed in the dynamically typed calls
to `_stream_from_file`: either a file record or the session object.  The
source calls `_stream_from_file(local_file_info, session)` in one branch
and `_stream_from_file(session, local_file_info)` in the other, so the
embedding must keep the call dynamically typed to be faithful. -/
inductive Arg
  | fileArg (f : FileRec)
  | sessionArg (s : Session)

/-- Attribute lookup `x.path`.  A `FileRec` has a `path` attribute; the
session object modelled from the spec (url, local_dir, remote_dir, filters)
has none, so the access raises `AttributeError`. -/
def Arg.pathAttr : Arg → Option String
  | Arg.fileArg f => some f.path
  | Arg.sessionArg _ => none

/-- Embedding of `_stream_from_file` at the decision level: it first reads
`fileinfo.path` (in its log line and again for the upload call) and then
uploads that path via `_upload_file_safely`.  If the `path` attribute is
missing on the object passed as `fileinfo`, the call raises
`AttributeError` before any effect happens. -/
def _stream_from_file (fileinfo : Arg) (_session : Arg) :
    Option PyErr × List SyncEffect :=
  match Arg.pathAttr fileinfo with
  | none => (some attributeError, [])
  | some p => (none, [SyncEffect.uploadFile p])

/-- Embedding of `_sync_local_file`: decide, from the `remote_files`
mapping (filename to remote record), whether to skip, replace or upload the
local file.  The absent-on-destination branch of the source reads
`_stream_from_file(session, local_file_info)` — the two arguments are in
swapped positions. -/
def _sync_local_file (local_file_info : FileRec)
    (remote_files : List (String × FileRec)) (sess : Session) :
    Option PyErr × List SyncEffect :=
  let local_name := local_file_info.filename
  let local_size := local_file_info.size
  match lookupMap remote_files local_name with
  | some remote_file_info =>
    if local_size = remote_file_info.size then
      (none, [SyncEffect.skipFile local_name])
    else
      let r := _stream_from_file (Arg.fileArg local_file_info) (Arg.sessionArg sess)
      (r.1, SyncEffect.deleteRemote remote_file_info.path :: r.2)
  | none => _stream_from_file (Arg.sessionArg sess) (Arg.fileArg local_file_info)

/-- Embedding of `_sync_remote_file`: decide, from the local file system,
whether to skip, replace or download the remote file into
`Path(local_dir, filename)`. -/
def _sync_remote_file (remote_file_info : FileRec) (sess : Session)
    (localFS : FS) : List SyncEffect :=
  let local_name := joinPath sess.local_dir remote_file_info.filename
  match lookupFS localFS local_name with
  | some local_size =>
    if local_size = remote_file_info.size then
      [SyncEffect.skipFile local_name]
    else
      [SyncEffect.removeLocal local_name, SyncEffect.downloadFile local_name]
  | none => [SyncEffect.downloadFile local_name]

/-! ## Orchestrator generators -/

/-- The two sync directions. -/
inductive Direction
  | up
  | down
deriving DecidableEq, Repr

/-- Observable events of one orchestrator step: a `yield` of a
(Direction, ArrivalSet) pair to the consumer of the generator, or the
execution of a transfer of an arrival set. -/
inductive SyncEvent
  | yieldStep (d : Direction) (arrivals : Finset FileRec)
  | transferStep (d : Direction) (arrivals : Finset FileRec)
deriving DecidableEq

/-- `x` occurs at a strictly smaller index than `y` in `es`. -/
def precedes (x y : SyncEvent) (es : List SyncEvent) : Prop :=
  ∃ i j : Nat, i < j ∧ es.get? i = some x ∧ es.get? j = some y

/-- One loop iteration of `up_by_arrival`, as its event list: yield the
(up, arrivals) pair, then, when the arrivals are non-empty, upload them. -/
def up_by_tick (new_arrivals _file_set : Finset FileRec) : List SyncEvent :=
  SyncEvent.yieldStep Direction.up new_arrivals ::
    (if new_arrivals = ∅ then [] else [SyncEvent.transferStep Direction.up new_arrivals])

/-- One loop iteration of `down_by_arrival`, as its event list: when the
arrivals are non-empty, download them; only then yield the (down, arrivals)
pair. -/
def down_by_tick (new_arrivals _file_set : Finset FileRec) : List SyncEvent :=
  (if new_arrivals = ∅ then [] else [SyncEvent.transferStep Direction.down new_arrivals]) ++
    [SyncEvent.yieldStep Direction.down new_arrivals]

/-- The arrival filter of `up_down_by_arrival`: the watcher arrivals whose
filename is not yet in the `processed` set. -/
def arrivalsNotProcessed (processed : Finset String) (watcherArrivals : Finset FileRec) :
    Finset FileRec :=
  watcherArrivals.filter (fun f => ¬ f.filename ∈ processed)

/-- The `processed` set after the local half of one `up_down_by_arrival`
iteration: the local arrival filenames are added when the local arrival set
is non-empty. -/
def midProcessed (processed : Finset String) (new_local : Finset FileRec) : Finset String :=
  let local_arrivals := arrivalsNotProcessed processed new_local
  if local_arrivals = ∅ then processed
  else processed ∪ local_arrivals.image FileRec.filename

/-- One loop iteration of `up_down_by_arrival`, for the pair of watcher
outputs `(new_local, local_set)` and `(new_remote, remote_set)` pulled from
`zip(local_monitor, remote_monitor)`.  Following the source line by line:
filter the local arrivals against `processed` and yield them; when
non-empty, record them as processed and upload them; then filter the remote
arrivals against the updated `processed` and yield them; when non-empty,
record them as processed, yield the same (down, arrivals) pair a second
time, and download them.  Result: the event list of the iteration and the
updated `processed` set. -/
def up_down_tick (processed : Finset String)
    (new_local _local_set new_remote _remote_set : Finset FileRec) :
    List SyncEvent × Finset String :=
  let local_arrivals := arrivalsNotProcessed processed new_local
  let upEvents := SyncEvent.yieldStep Direction.up local_arrivals ::
    (if local_arrivals = ∅ then []
     else [SyncEvent.transferStep Direction.up local_arrivals])
  let p1 := midProcessed processed new_local
  let remote_arrivals := arrivalsNotProcessed p1 new_remote
  let downEvents := SyncEvent.yieldStep Direction.down remote_arrivals ::
    (if remote_arrivals = ∅ then []
     else [SyncEvent.yieldStep Direction.down remote_arrivals,
           SyncEvent.transferStep Direction.down remote_arrivals])
  let p2 := if remote_arrivals = ∅ then p1
            else p1 ∪ remote_arrivals.image FileRec.filename
  (upEvents ++ downEvents, p2)

/-- Several `up_down_by_arrival` iterations in sequence, threading the
`processed` set: the input list holds, per tick, the pair of watcher
outputs ((new_local, local_set), (new_remote, remote_set)). -/
def up_down_run (processed : Finset String) :
    List ((Finset FileRec × Finset FileRec) × (Finset FileRec × Finset FileRec)) →
    List SyncEvent
  | [] => []
  | ((nl, sl), (nr, sr)) :: rest =>
    let step := up_down_tick processed nl sl nr sr
    step.1 ++ up_down_run step.2 rest

/-! ## Monitor lifecycle -/

/-- The Monitor state: the `running` event flag and the worker thread
handle (`none` when no thread has been created or after `join`). -/
structure MonitorState where
  running : Bool
  thread : Option Nat
deriving DecidableEq, Repr

/-- Embedding of `Monitor._run`: `assert self.thread is None` first — when
a worker handle exists the assertion raises `AssertionError` with the state
untouched; otherwise set the running flag and store the new worker
handle. -/
def Monitor_run (s : MonitorState) (newId : Nat) : PyResult MonitorState :=
  match s.thread with
  | some _ => (some assertionError, s)
  | none => (none, ⟨true, some newId⟩)

/-- `Monitor.sync_up` starts the up-only orchestrator via `_run`. -/
def Monitor_sync_up (s : MonitorState) (newId : Nat) : PyResult MonitorState :=
  Monitor_run s newId

/-- `Monitor.sync_down` starts the down-only orchestrator via `_run`. -/
def Monitor_sync_down (s : MonitorState) (newId : Nat) : PyResult MonitorState :=
  Monitor_run s newId

/-- `Monitor.sync_both` starts the bidirectional orchestrator via `_run`. -/
def Monitor_sync_both (s : MonitorState) (newId : Nat) : PyResult MonitorState :=
  Monitor_run s newId

/-- Embedding of `Monitor.stop`: clear the running flag. -/
def Monitor_stop (s : MonitorState) : MonitorState :=
  ⟨false, s.thread⟩

/-- Embedding of `Monitor.join`: wait on the thread when one exists (which
changes no Monitor state), then clear the worker handle.  It raises
nothing. -/
def Monitor_join (s : MonitorState) : PyResult MonitorState :=
  (none, ⟨s.running, none⟩)

/-! ## Concrete fixtures used by witnesses and counterexamples -/

/-- A change signal that fires on every tick. -/
def sigT : Nat → Bool := fun _ => true

/-- Remote record of A.JPG with size 60 (before an in-place rewrite). -/
def a60 : FileRec := ⟨"/DCIM", "A.JPG", "/DCIM/A.JPG", 60, some 9⟩

/-- Remote record of A.JPG with size 80 (after an in-place rewrite). -/
def a80 : FileRec := ⟨"/DCIM", "A.JPG", "/DCIM/A.JPG", 80, some 9⟩

/-- Remote listing results: the first list call sees A.JPG at size 60, every
later one sees it rewritten in place at size 80. -/
def Rex : Nat → Finset FileRec := fun n => if n = 0 then {a60} else {a80}

/-- A well-formed local record in /photos. -/
def pj : FileRec := ⟨"/photos", "P.JPG", "/photos/P.JPG", 100, some 7⟩

/-- A constant local listing: P.JPG is present on every tick. -/
def Lw : Nat → Finset FileRec := fun _ => ({pj} : Finset FileRec)

/-! ## C1: arrival sets are snapshot differences -/

/-- C1 (amended): the arrival set yielded on every tick after the first is
the set difference (new minus old) of consecutive snapshots by full record
identity, and it is empty whenever old equals new.  For the local watcher,
whose records all carry the session directory and the path joined from it
(first conjunct, proved of `list_local_files`), the record difference
coincides with the difference keyed by filename, size and timestamp.  For
the remote watcher the difference is likewise by full record — not by
filename alone, which the counterexample refutes. -/
theorem C1_arrival_diff :
    (∀ (sess : Session) (entries : List DirEntry), ∀ r ∈ list_local_files sess entries,
        r.directory = sess.local_dir ∧ r.path = joinPath sess.local_dir r.filename)
  ∧ (∀ (L : Nat → Finset FileRec) (n : Nat),
        (watch_local_files L (n + 1)).1 = L (n + 1) \ L n)
  ∧ (∀ (L : Nat → Finset FileRec) (d : String) (n : Nat),
        (∀ k, ∀ r ∈ L k, r.directory = d ∧ r.path = joinPath d r.filename) →
        (watch_local_files L (n + 1)).1 = diffByKey localKey (L (n + 1)) (L n))
  ∧ (∀ (L : Nat → Finset FileRec) (n : Nat),
        L (n + 1) = L n → (watch_local_files L (n + 1)).1 = ∅)
  ∧ (∀ (sig : Nat → Bool) (R : Nat → Finset FileRec) (n : Nat),
        (watch_remote_files sig R (n + 1)).1 =
          (remoteRun sig R (n + 1)).2.new \ (remoteRun sig R n).2.new)
  ∧ (∀ (sig : Nat → Bool) (R : Nat → Finset FileRec) (n : Nat),
        (remoteRun sig R (n + 1)).2.new = (remoteRun sig R n).2.new →
        (watch_remote_files sig R (n + 1)).1 = ∅) := by
  refine ⟨list_local_files_wf, ?_, ?_, ?_, ?_, ?_⟩
  · intro L n
    simp [watch_local_files, localState_new, localState_old_succ]
  · intro L d n hL
    have h : (watch_local_files L (n + 1)).1 = L (n + 1) \ L n := by
      simp [watch_local_files, localState_new, localState_old_succ]
    rw [h]
    exact sdiff_eq_diffByKey_localKey (L (n + 1)) (L n) d (hL (n + 1)) (hL n)
  · intro L n h
    simp [watch_local_files, localState_new, localState_old_succ, h]
  · intro sig R n
    simp [watch_remote_files, remoteRun_old_succ]
  · intro sig R n h
    have h2 : (watch_remote_files sig R (n + 1)).1 =
        (remoteRun sig R (n + 1)).2.new \ (remoteRun sig R n).2.new := by
      simp [watch_remote_files, remoteRun_old_succ]
    rw [h2, h, Finset.sdiff_self]

/-- Witness for C1: the keyed-difference conjunct applied to the concrete
listing `Lw`, whose well-formedness hypothesis is discharged by decision. -/
theorem C1_arrival_diff_witness :
    (∀ k, ∀ r ∈ Lw k, r.directory = "/photos" ∧ r.path = joinPath "/photos" r.filename)
  ∧ (watch_local_files Lw 1).1 = diffByKey localKey (Lw 1) (Lw 0) :=
  ⟨fun _ => by intro r hr; simp only [Lw] at hr; rw [Finset.mem_singleton] at hr; subst hr; decide,
   C1_arrival_diff.2.2.1 Lw "/photos" 0
     (fun _ => by intro r hr; simp only [Lw] at hr; rw [Finset.mem_singleton] at hr; subst hr; decide)⟩

/-- Counterexample for C1 as stated: under the always-true change signal
and the listings `Rex`, the remote snapshot moves from old = [A.JPG size
60] to new = [A.JPG size 80] (an in-place rewrite), and the watcher yields
the arrival set [A.JPG size 80] — while (new minus old) keyed by filename
alone is empty.  The yielded arrival set therefore differs from the
filename-keyed difference the claim names for the remote watcher. -/
theorem C1_remote_key_counterexample :
    (remoteRun sigT Rex 1).2.old = {a60}
  ∧ (remoteRun sigT Rex 1).2.new = {a80}
  ∧ (watch_remote_files sigT Rex 1).1 = {a80}
  ∧ diffByKey filenameKey (remoteRun sigT Rex 1).2.new (remoteRun sigT Rex 1).2.old = ∅
  ∧ (watch_remote_files sigT Rex 1).1 ≠
      diffByKey filenameKey (remoteRun sigT Rex 1).2.new (remoteRun sigT Rex 1).2.old := by
  refine ⟨?_, ?_, ?_, ?_, ?_⟩ <;> decide

/-! ## C5: the remote watcher and the change signal -/

/-- C5: before its loop starts the remote watcher reads (and thereby
clears) the change signal exactly once and lists the directory once; on
every later tick, a true signal appends one signal read and one fresh
listing (the yielded pair diffs the fresh listing against the previous
snapshot), while a false signal appends only the signal read — no listing
call — and the yielded pair is the empty arrival set with the previous
snapshot reused. -/
theorem C5_remote_signal :
    (∀ (sig : Nat → Bool) (R : Nat → Finset FileRec),
        (remoteRun sig R 0).1 = [RemoteCall.memoryChanged, RemoteCall.listFiles]
      ∧ (remoteRun sig R 0).1.count RemoteCall.memoryChanged = 1)
  ∧ (∀ (sig : Nat → Bool) (R : Nat → Finset FileRec) (n : Nat), sig n = true →
        (remoteRun sig R (n + 1)).1 =
          (remoteRun sig R n).1 ++ [RemoteCall.memoryChanged, RemoteCall.listFiles]
      ∧ watch_remote_files sig R (n + 1) =
          (R (remoteRun sig R n).2.calls \ (remoteRun sig R n).2.new,
           R (remoteRun sig R n).2.calls))
  ∧ (∀ (sig : Nat → Bool) (R : Nat → Finset FileRec) (n : Nat), sig n = false →
        (remoteRun sig R (n + 1)).1 = (remoteRun sig R n).1 ++ [RemoteCall.memoryChanged]
      ∧ watch_remote_files sig R (n + 1) = (∅, (remoteRun sig R n).2.new)) := by
  refine ⟨?_, ?_, ?_⟩
  · intro sig R
    exact ⟨rfl, rfl⟩
  · intro sig R n h
    constructor
    · simp [remoteRun, h]
    · simp [watch_remote_files, remoteRun, h]
  · intro sig R n h
    constructor
    · simp [remoteRun, h]
    · simp [watch_remote_files, remoteRun, h, Finset.sdiff_self]

/-- Witness for C5: the true-signal conjunct applied at tick 0 of the
concrete signal and listings. -/
theorem C5_remote_signal_witness :
    sigT 0 = true
  ∧ ((remoteRun sigT Rex 1).1 =
        (remoteRun sigT Rex 0).1 ++ [RemoteCall.memoryChanged, RemoteCall.listFiles]
    ∧ watch_remote_files sigT Rex 1 =
        (Rex (remoteRun sigT Rex 0).2.calls \ (remoteRun sigT Rex 0).2.new,
         Rex (remoteRun sigT Rex 0).2.calls)) :=
  ⟨rfl, C5_remote_signal.2.1 sigT Rex 0 rfl⟩

/-! ## C10: the first yield of each watcher -/

/-- C10: both watchers initialize old and new to the same first listing, so
the first yielded pair is the empty arrival set with the initial snapshot;
moreover a record present in every snapshot — in particular one present
when watching begins and never removed — is never yielded as an arrival. -/
theorem C10_first_yield_empty :
    (∀ L : Nat → Finset FileRec, watch_local_files L 0 = (∅, L 0))
  ∧ (∀ (sig : Nat → Bool) (R : Nat → Finset FileRec),
        watch_remote_files sig R 0 = (∅, R 0))
  ∧ (∀ (L : Nat → Finset FileRec) (r : FileRec),
        (∀ k, r ∈ L k) → ∀ n, r ∉ (watch_local_files L n).1)
  ∧ (∀ (sig : Nat → Bool) (R : Nat → Finset FileRec) (r : FileRec),
        (∀ k, r ∈ (remoteRun sig R k).2.new) → ∀ n, r ∉ (watch_remote_files sig R n).1) := by
  refine ⟨?_, ?_, ?_, ?_⟩
  · intro L
    simp [watch_local_files, localState, Finset.sdiff_self]
  · intro sig R
    simp [watch_remote_files, remoteRun, Finset.sdiff_self]
  · intro L r h n
    have hold : r ∈ (localState L n).old := by
      cases n with
      | zero => exact h 0
      | succ m => rw [localState_old_succ]; exact h m
    simp only [watch_local_files, Finset.mem_sdiff, not_and, not_not]
    intro _
    exact hold
  · intro sig R r h n
    have hold : r ∈ (remoteRun sig R n).2.old := by
      cases n with
      | zero => exact h 0
      | succ m => rw [remoteRun_old_succ]; exact h m
    simp only [watch_remote_files, Finset.mem_sdiff, not_and, not_not]
    intro _
    exact hold

/-- Witness for C10: the persistence conjunct applied to the constant
listing `Lw` and its record. -/
theorem C10_first_yield_empty_witness :
    (∀ k, pj ∈ Lw k) ∧ pj ∉ (watch_local_files Lw 1).1 :=
  ⟨fun _ => Finset.mem_singleton_self pj,
   C10_first_yield_empty.2.2.1 Lw pj (fun _ => Finset.mem_singleton_self pj) 1⟩

/-! ## Transfer engine lemmas -/

/-- The chunk loop returns normally when every chunk arrives intact and
every progress fault is an Exception-class error (those are caught inside
`_update_pbar`). -/
theorem writeChunks_ok (p : String) (pf : Nat → Option PyErr) (cs : List Chunk)
    (hcs : ∀ c ∈ cs, ∃ len, c = Chunk.bytes len)
    (hpf : ∀ k e, pf k = some e → e.isException = true) :
    ∀ k fs, (writeChunks p pf cs k fs).1 = none := by
  induction cs with
  | nil => intro k fs; rfl
  | cons c rest ih =>
    intro k fs
    obtain ⟨len, rfl⟩ := hcs c (List.mem_cons_self c rest)
    have hps : _update_pbar (pf k) = none := by
      cases h : pf k with
      | none => rfl
      | some e => simp [_update_pbar, hpf k e h]
    simp only [writeChunks, hps]
    exact ih (fun c hc => hcs c (List.mem_cons_of_mem _ hc)) (k + 1) _

/-! ## C6: transport status checking -/

/-- A response with a failing transport status. -/
def resp404 : Response := ⟨404, [Chunk.bytes 5]⟩

/-- C6 (amended): a transport status other than 200 makes `_write_file`
raise the transfer error (`RequestException`) with nothing written to disk
— 200 is the only status under which `_write_file` can return normally —
but the unconditional cleanup of `_write_file_safely` then calls
`os.remove` on the never-created file, and the resulting
`FileNotFoundError` is what reaches the caller of the wrapper in place of
the transfer error; no partial file is left either way. -/
theorem C6_status_check :
    (∀ (resp : Response) (pf : Nat → Option PyErr) (fs : FS) (p : String),
        resp.status_code ≠ 200 → lookupFS fs p = none →
        _write_file p resp pf fs = (some requestException, fs)
      ∧ _write_file_safely p resp pf fs = (some fileNotFoundError, fs))
  ∧ (∀ (resp : Response) (pf : Nat → Option PyErr) (fs : FS) (p : String),
        (_write_file p resp pf fs).1 = none → resp.status_code = 200) := by
  constructor
  · intro resp pf fs p hs habs
    have h1 : _write_file p resp pf fs = (some requestException, fs) := by
      simp [_write_file, hs]
    refine ⟨h1, ?_⟩
    simp [_write_file_safely, h1, os_remove, habs]
  · intro resp pf fs p h
    by_contra hne
    simp [_write_file, hne] at h

/-- Witness for C6: the non-200 conjunct applied to a concrete 404
response on an empty local disk. -/
theorem C6_status_check_witness :
    (resp404.status_code ≠ 200 ∧ lookupFS ([] : FS) "/photos/Y.JPG" = none)
  ∧ (_write_file "/photos/Y.JPG" resp404 (fun _ => none) [] = (some requestException, [])
    ∧ _write_file_safely "/photos/Y.JPG" resp404 (fun _ => none) [] =
        (some fileNotFoundError, [])) :=
  ⟨⟨by decide, rfl⟩,
   C6_status_check.1 resp404 (fun _ => none) [] "/photos/Y.JPG" (by decide) rfl⟩

/-- Counterexample for C6 as stated: on a 404 response the error reaching
the caller of `_write_file_safely` is `FileNotFoundError` (raised by the
cleanup removing a file that was never created), not the transfer error. -/
theorem C6_masked_error_counterexample :
    _write_file_safely "/photos/Y.JPG" resp404 (fun _ => none) [] =
      (some fileNotFoundError, [])
  ∧ fileNotFoundError ≠ requestException := by
  constructor <;> decide

/-! ## C9: progress-reporting errors -/

/-- A successful one-chunk response. -/
def resp200 : Response := ⟨200, [Chunk.bytes 5]⟩

/-- Progress faults that are all a keyboard interrupt. -/
def pfKI : Nat → Option PyErr := fun _ => some keyboardInterrupt

/-- C9 (amended): an Exception-class error raised while updating the
progress bar is caught inside `_update_pbar` and never propagates, so the
transfer completes when the stream itself is healthy; an error outside the
`Exception` hierarchy (the source catches `except Exception`) passes
through — the counterexample shows it aborting the transfer. -/
theorem C9_progress_errors :
    (∀ e : PyErr, e.isException = true → _update_pbar (some e) = none)
  ∧ _update_pbar none = none
  ∧ (∀ e : PyErr, e.isException = false → _update_pbar (some e) = some e)
  ∧ (∀ (p : String) (pf : Nat → Option PyErr) (resp : Response) (fs : FS),
        resp.status_code = 200 →
        (∀ c ∈ resp.chunks, ∃ len, c = Chunk.bytes len) →
        (∀ k e, pf k = some e → e.isException = true) →
        (_write_file p resp pf fs).1 = none) := by
  refine ⟨?_, rfl, ?_, ?_⟩
  · intro e h
    simp [_update_pbar, h]
  · intro e h
    simp [_update_pbar, h]
  · intro p pf resp fs hs hcs hpf
    simp only [_write_file, hs, if_pos]
    exact writeChunks_ok p pf resp.chunks hcs hpf 0 _

/-- Witness for C9: the catching conjunct applied to a concrete
Exception-class error. -/
theorem C9_progress_errors_witness :
    connectionError.isException = true ∧ _update_pbar (some connectionError) = none :=
  ⟨rfl, C9_progress_errors.1 connectionError rfl⟩

/-- Counterexample for C9 as stated: a `KeyboardInterrupt` raised by
`pbar.update` is not caught by `_update_pbar` (the source catches only
`Exception`) and aborts the write of an otherwise healthy 200 stream. -/
theorem C9_base_exception_counterexample :
    _update_pbar (some keyboardInterrupt) = some keyboardInterrupt
  ∧ (_write_file "/photos/Z.JPG" resp200 pfKI []).1 = some keyboardInterrupt := by
  constructor <;> decide

/-! ## C3: cleanup after an interrupted transfer -/

/-- The session used in the transfer fixtures: distinct local and remote
directories. -/
def sess3 : Session := ⟨"http://flashair/", "/photos", "/DCIM", fun _ => true⟩

/-- The local file whose upload is interrupted. -/
def xjpg : FileRec := ⟨"/photos", "X.JPG", "/photos/X.JPG", 100, some 5⟩

/-- C3 failing-input evaluation: uploading /photos/X.JPG to the /DCIM
remote directory is interrupted after 10 bytes.  The cleanup of
`_upload_file_safely` invokes the remote delete with `fileinfo.path` — the
LOCAL path /photos/X.JPG — while the truncated artifact lives at the remote
path /DCIM/X.JPG, so the artifact survives the cleanup; the original error
is re-raised. -/
theorem C3_upload_cleanup_eval :
    _upload_file_safely xjpg sess3 (some (connectionError, 10))
        [("/photos/X.JPG", 100)] [] =
      (some connectionError, [("/DCIM/X.JPG", 10)])
  ∧ joinPath sess3.remote_dir (basename xjpg.path) ≠ xjpg.path
  ∧ lookupFS (_upload_file_safely xjpg sess3 (some (connectionError, 10))
        [("/photos/X.JPG", 100)] []).2 "/DCIM/X.JPG" = some 10 := by
  refine ⟨?_, ?_, ?_⟩ <;> decide

/-! ## C2: per-file size-comparison decisions -/

/-- Local B.JPG, size 50 — also present remotely with size 50. -/
def bLoc : FileRec := ⟨"/photos", "B.JPG", "/photos/B.JPG", 50, some 1⟩

/-- Remote B.JPG, size 50. -/
def bRem : FileRec := ⟨"/DCIM", "B.JPG", "/DCIM/B.JPG", 50, some 1⟩

/-- Local C.JPG, size 80 — present remotely with stale size 60. -/
def cLoc : FileRec := ⟨"/photos", "C.JPG", "/photos/C.JPG", 80, some 2⟩

/-- Remote C.JPG, stale size 60. -/
def cRem : FileRec := ⟨"/DCIM", "C.JPG", "/DCIM/C.JPG", 60, some 2⟩

/-- Local D.JPG, size 40 — absent from the remote listing. -/
def dLoc : FileRec := ⟨"/photos", "D.JPG", "/photos/D.JPG", 40, some 3⟩

/-- Remote D.JPG, size 40 — absent from the local disk. -/
def dRem : FileRec := ⟨"/DCIM", "D.JPG", "/DCIM/D.JPG", 40, some 3⟩

/-- The remote listing mapping used by `_sync_local_file`. -/
def rmMap : List (String × FileRec) := [("B.JPG", bRem), ("C.JPG", cRem)]

/-- C2 failing-input evaluation.  Same name and size: skip with no other
effect, in both directions.  Same name, different size: delete the stale
destination copy, then transfer, in both directions.  Absent on the
destination: the download direction transfers directly, but the upload
direction raises `AttributeError` with no effect at all, because the source
passes the arguments of `_stream_from_file(session, local_file_info)` in
swapped positions, so the attribute read `fileinfo.path` happens on the
session object. -/
theorem C2_sync_decision_eval :
    _sync_local_file bLoc rmMap sess3 = (none, [SyncEffect.skipFile "B.JPG"])
  ∧ _sync_local_file cLoc rmMap sess3 =
      (none, [SyncEffect.deleteRemote "/DCIM/C.JPG", SyncEffect.uploadFile "/photos/C.JPG"])
  ∧ _sync_local_file dLoc rmMap sess3 = (some attributeError, [])
  ∧ _sync_remote_file bRem sess3 [("/photos/B.JPG", 50)] = [SyncEffect.skipFile "/photos/B.JPG"]
  ∧ _sync_remote_file cRem sess3 [("/photos/C.JPG", 80)] =
      [SyncEffect.removeLocal "/photos/C.JPG", SyncEffect.downloadFile "/photos/C.JPG"]
  ∧ _sync_remote_file dRem sess3 [] = [SyncEffect.downloadFile "/photos/D.JPG"] := by
  refine ⟨?_, ?_, ?_, ?_, ?_, ?_⟩ <;> decide

/-! ## C4: bidirectional ordering, dedup and the duplicated yield -/

/-- Local A.JPG as uploaded on tick 1. -/
def aLoc : FileRec := ⟨"/photos", "A.JPG", "/photos/A.JPG", 100, some 7⟩

/-- Remote A.JPG as it appears in the remote snapshot after the upload. -/
def aRem : FileRec := ⟨"/DCIM", "A.JPG", "/DCIM/A.JPG", 100, some 7⟩

/-- Two bidirectional ticks: tick 1 sees the new local A.JPG and nothing
remote; tick 2 sees no local change while the remote watcher reports both
the just-uploaded A.JPG and an unrelated new B.JPG as arrivals. -/
def c4Ticks :
    List ((Finset FileRec × Finset FileRec) × (Finset FileRec × Finset FileRec)) :=
  [((({aLoc} : Finset FileRec), ({aLoc} : Finset FileRec)),
    ((∅ : Finset FileRec), (∅ : Finset FileRec))),
   (((∅ : Finset FileRec), (∅ : Finset FileRec)),
    (({aRem, bRem} : Finset FileRec), ({aRem, bRem} : Finset FileRec)))]

/-- C4 failing-input evaluation: the run processes and yields local
arrivals before remote ones and never downloads the just-uploaded A.JPG
back (its filename is in the processed set, so it is filtered out of the
tick-2 remote arrivals), but the non-empty remote arrival set [B.JPG] is
yielded as a (down, arrivals) pair twice — the source yields again inside
the non-empty branch — so a tick does not consist of exactly one yielded
pair per direction. -/
theorem C4_bidirectional_eval :
    up_down_run ∅ c4Ticks =
      [SyncEvent.yieldStep Direction.up {aLoc},
       SyncEvent.transferStep Direction.up {aLoc},
       SyncEvent.yieldStep Direction.down ∅,
       SyncEvent.yieldStep Direction.up ∅,
       SyncEvent.yieldStep Direction.down {bRem},
       SyncEvent.yieldStep Direction.down {bRem},
       SyncEvent.transferStep Direction.down {bRem}]
  ∧ (up_down_run ∅ c4Ticks).count (SyncEvent.yieldStep Direction.down {bRem}) = 2
  ∧ SyncEvent.transferStep Direction.down {aRem} ∉ up_down_run ∅ c4Ticks
  ∧ aRem ∉ ({bRem} : Finset FileRec) := by
  refine ⟨?_, ?_, ?_, ?_⟩ <;> decide

/-! ## C7: yields happen before transfers, except in down-only mode -/

/-- C7: in up-only mode the (up, arrivals) pair is yielded before the
upload of a non-empty arrival set; in bidirectional mode every transfer of
a non-empty arrival set is preceded by a yield of the same pair; in
down-only mode the download happens first and the (down, arrivals) pair is
yielded after it. -/
theorem C7_yield_transfer_order :
    (∀ A S : Finset FileRec, A ≠ ∅ →
        up_by_tick A S =
          [SyncEvent.yieldStep Direction.up A, SyncEvent.transferStep Direction.up A]
      ∧ precedes (SyncEvent.yieldStep Direction.up A)
          (SyncEvent.transferStep Direction.up A) (up_by_tick A S))
  ∧ (∀ A S : Finset FileRec, A ≠ ∅ →
        down_by_tick A S =
          [SyncEvent.transferStep Direction.down A, SyncEvent.yieldStep Direction.down A]
      ∧ precedes (SyncEvent.transferStep Direction.down A)
          (SyncEvent.yieldStep Direction.down A) (down_by_tick A S))
  ∧ (∀ (processed : Finset String) (nl sl nr sr : Finset FileRec),
        (arrivalsNotProcessed processed nl ≠ ∅ →
          precedes (SyncEvent.yieldStep Direction.up (arrivalsNotProcessed processed nl))
            (SyncEvent.transferStep Direction.up (arrivalsNotProcessed processed nl))
            (up_down_tick processed nl sl nr sr).1)
      ∧ (arrivalsNotProcessed (midProcessed processed nl) nr ≠ ∅ →
          precedes
            (SyncEvent.yieldStep Direction.down
              (arrivalsNotProcessed (midProcessed processed nl) nr))
            (SyncEvent.transferStep Direction.down
              (arrivalsNotProcessed (midProcessed processed nl) nr))
            (up_down_tick processed nl sl nr sr).1)) := by
  refine ⟨?_, ?_, ?_⟩
  · intro A S hA
    have he : up_by_tick A S =
        [SyncEvent.yieldStep Direction.up A, SyncEvent.transferStep Direction.up A] := by
      simp [up_by_tick, hA]
    exact ⟨he, 0, 1, Nat.zero_lt_one, by rw [he]; rfl, by rw [he]; rfl⟩
  · intro A S hA
    have he : down_by_tick A S =
        [SyncEvent.transferStep Direction.down A, SyncEvent.yieldStep Direction.down A] := by
      simp [down_by_tick, hA]
    exact ⟨he, 0, 1, Nat.zero_lt_one, by rw [he]; rfl, by rw [he]; rfl⟩
  · intro processed nl sl nr sr
    constructor
    · intro h1
      refine ⟨0, 1, Nat.zero_lt_one, ?_, ?_⟩ <;>
        simp [up_down_tick, h1]
    · intro h2
      by_cases h1 : arrivalsNotProcessed processed nl = ∅
      · refine ⟨1, 3, by norm_num, ?_, ?_⟩ <;>
          simp [up_down_tick, h1, h2]
      · refine ⟨2, 4, by norm_num, ?_, ?_⟩ <;>
          simp [up_down_tick, h1, h2]

/-- Witness for C7: the up-only conjunct applied to a concrete non-empty
arrival set. -/
theorem C7_yield_transfer_order_witness :
    ({pj} : Finset FileRec) ≠ ∅
  ∧ (up_by_tick {pj} ∅ =
      [SyncEvent.yieldStep Direction.up {pj}, SyncEvent.transferStep Direction.up {pj}]
    ∧ precedes (SyncEvent.yieldStep Direction.up {pj})
        (SyncEvent.transferStep Direction.up {pj}) (up_by_tick {pj} ∅)) :=
  ⟨by decide, C7_yield_transfer_order.1 {pj} ∅ (by decide)⟩

/-! ## C8: Monitor lifecycle edge cases -/

/-- C8 (amended): calling any start method while a worker handle exists
raises `AssertionError` (the `assert self.thread is None` guard) and leaves
the state unchanged; calling join with no worker raises nothing, leaves the
running flag unchanged and leaves the (already clear) worker handle
clear. -/
theorem C8_lifecycle :
    (∀ (s : MonitorState) (newId : Nat), s.thread ≠ none →
        Monitor_sync_up s newId = (some assertionError, s)
      ∧ Monitor_sync_down s newId = (some assertionError, s)
      ∧ Monitor_sync_both s newId = (some assertionError, s))
  ∧ (∀ s : MonitorState, s.thread = none →
        Monitor_join s = (none, ⟨s.running, none⟩)) := by
  constructor
  · intro s newId h
    obtain ⟨t, ht⟩ := Option.ne_none_iff_exists'.mp h
    refine ⟨?_, ?_, ?_⟩ <;>
      simp [Monitor_sync_up, Monitor_sync_down, Monitor_sync_both, Monitor_run, ht]
  · intro s _
    rfl

/-- Witness for C8: the start-while-running conjunct applied to a concrete
running Monitor. -/
theorem C8_lifecycle_witness :
    (MonitorState.mk true (some 3)).thread ≠ none
  ∧ (Monitor_sync_up ⟨true, some 3⟩ 7 = (some assertionError, ⟨true, some 3⟩)
    ∧ Monitor_sync_down ⟨true, some 3⟩ 7 = (some assertionError, ⟨true, some 3⟩)
    ∧ Monitor_sync_both ⟨true, some 3⟩ 7 = (some assertionError, ⟨true, some 3⟩)) :=
  ⟨by decide, C8_lifecycle.1 ⟨true, some 3⟩ 7 (by decide)⟩

/-- Counterexample for C8 as stated: starting a Monitor whose worker
handle is set raises `AssertionError` — it is not a benign no-op. -/
theorem C8_start_running_counterexample :
    Monitor_sync_up ⟨true, some 0⟩ 1 = (some assertionError, ⟨true, some 0⟩) := by
  decide

end Tfatool
